import Mathlib

/-!
Verification of the PromptPulse environmental-impact service.

The Python sources under `environmental-service/src` are embedded shallowly:

* numbers that the service manipulates (energies, CO2 masses, carbon
  intensities) are modelled as exact rationals `ℚ`;
* Python strings are modelled as `List Char`, with executable models of
  `str.lower`, `str.strip` and the substring test `in`;
* Python dicts whose insertion order matters are modelled as association
  lists `List (key × value)`;
* Python `round(x, n)` is modelled as exact round-half-to-even on `ℚ`.

Each definition mirrors one function of the source tree; the theorems at the
end of the file settle the stated properties of the service.
-/

namespace PromptPulse

/-! ## Exact rational rounding (model of Python `round`) -/

/-- Round-half-to-even of a rational to an integer: the tie-breaking rule used
by Python's builtin `round`. -/
def roundHalfEven (x : ℚ) : ℤ :=
  if x - (⌊x⌋ : ℚ) < 1/2 then ⌊x⌋
  else if (1 : ℚ)/2 < x - (⌊x⌋ : ℚ) then ⌊x⌋ + 1
  else if ⌊x⌋ % 2 = 0 then ⌊x⌋ else ⌊x⌋ + 1

/-- Model of Python `round(x, n)`: round to `n` decimal places,
half-to-even. -/
def roundTo (n : ℕ) (x : ℚ) : ℚ := (roundHalfEven (x * 10 ^ n) : ℚ) / 10 ^ n

/-! ## Python string primitives -/

/-- Model of Python `str.lower` (the service only lowercases ASCII model ids
and location names, so `Char.toLower` is an exact model on them). -/
def pyLower (s : List Char) : List Char := s.map Char.toLower

/-- The ASCII whitespace characters removed by Python `str.strip`, identified
by code point. -/
def isSpaceChar (c : Char) : Bool :=
  c.toNat = 32 || c.toNat = 9 || c.toNat = 10 || c.toNat = 13 || c.toNat = 11 || c.toNat = 12

/-- Drop whitespace from the front (Python `str.lstrip`). -/
def lstripL (s : List Char) : List Char := s.dropWhile isSpaceChar

/-- Drop whitespace from the back (Python `str.rstrip`). -/
def rstripL (s : List Char) : List Char := (s.reverse.dropWhile isSpaceChar).reverse

/-- Model of Python `str.strip`: drop whitespace from both ends. -/
def pyStrip (s : List Char) : List Char := rstripL (lstripL s)

/-- Does `p` occur at the start of `s`? -/
def startsWithList : List Char → List Char → Bool
  | [], _ => true
  | _ :: _, [] => false
  | a :: p, b :: s => a == b && startsWithList p s

/-- Model of the Python substring test `needle in hay`. -/
def containsSub : List Char → List Char → Bool
  | needle, [] => needle.isEmpty
  | needle, b :: t => startsWithList needle (b :: t) || containsSub needle t

/-! ## `ecologits_calculator.py` -/

/-- `ModelEnergyProfile` dataclass of `ecologits_calculator.py`: energy cost
per input token, per output token, and a fixed per-request base cost, all in
watt-hours. -/
structure ModelEnergyProfile where
  name : List Char
  energy_per_input_token : ℚ
  energy_per_output_token : ℚ
  base_energy : ℚ := 0
  source : List Char := "ecologits_research".data
  deriving DecidableEq

/-- The `claude_3_5_sonnet_base` profile built in
`_initialize_model_profiles`. -/
def claude_3_5_sonnet_base : ModelEnergyProfile :=
  { name := "claude-3-5-sonnet".data
    energy_per_input_token := 0.0001
    energy_per_output_token := 0.0003
    base_energy := 0.01
    source := "ecologits_estimate".data }

/-- The `claude_models` name list of `_initialize_model_profiles`. -/
def claude_models : List (List Char) :=
  ["claude-3-5-sonnet-20241022".data,
   "claude-3-5-sonnet-20240620".data,
   "claude-3-5-sonnet".data,
   "claude-3-sonnet-20240229".data,
   "claude-3-haiku-20240307".data,
   "claude-3-opus-20240229".data]

/-- `EcoLogitsCalculator._initialize_model_profiles`: the known-profile table,
an insertion-ordered dict modelled as an association list.  Each name gets the
haiku constants if it contains "haiku", the opus constants if it contains
"opus", and the shared sonnet base profile otherwise. -/
def model_profiles : List (List Char × ModelEnergyProfile) :=
  claude_models.map fun model_name =>
    if containsSub "haiku".data (pyLower model_name) then
      (model_name,
       { name := model_name
         energy_per_input_token := 0.00005
         energy_per_output_token := 0.00015
         base_energy := 0.005
         source := "ecologits_estimate".data })
    else if containsSub "opus".data (pyLower model_name) then
      (model_name,
       { name := model_name
         energy_per_input_token := 0.0002
         energy_per_output_token := 0.0005
         base_energy := 0.02
         source := "ecologits_estimate".data })
    else
      (model_name, claude_3_5_sonnet_base)

/-- Direct dict lookup `self.model_profiles[model]` guarded by
`model in self.model_profiles`. -/
def lookupProfile (model : List Char) : Option ModelEnergyProfile :=
  (model_profiles.find? fun q => q.1 == model).map Prod.snd

/-- The fuzzy-match loop of `_get_model_profile`: first profile whose
lowercased name contains, or is contained in, the lowercased query. -/
def fuzzyMatch (model_lower : List Char) : Option ModelEnergyProfile :=
  (model_profiles.find? fun q =>
      containsSub (pyLower q.1) model_lower || containsSub model_lower (pyLower q.1)).map
    Prod.snd

/-- `EcoLogitsCalculator._get_haiku_profile`. -/
def getHaikuProfile : ModelEnergyProfile :=
  { name := "claude-haiku-fallback".data
    energy_per_input_token := 0.00005
    energy_per_output_token := 0.00015
    base_energy := 0.005
    source := "fallback_estimate".data }

/-- `EcoLogitsCalculator._get_opus_profile`. -/
def getOpusProfile : ModelEnergyProfile :=
  { name := "claude-opus-fallback".data
    energy_per_input_token := 0.0002
    energy_per_output_token := 0.0005
    base_energy := 0.02
    source := "fallback_estimate".data }

/-- `EcoLogitsCalculator._get_sonnet_profile`. -/
def getSonnetProfile : ModelEnergyProfile :=
  { name := "claude-sonnet-fallback".data
    energy_per_input_token := 0.0001
    energy_per_output_token := 0.0003
    base_energy := 0.01
    source := "fallback_estimate".data }

/-- `EcoLogitsCalculator._get_default_profile`. -/
def getDefaultProfile : ModelEnergyProfile :=
  { name := "unknown-model-fallback".data
    energy_per_input_token := 0.0001
    energy_per_output_token := 0.0003
    base_energy := 0.01
    source := "default_fallback".data }

/-- `EcoLogitsCalculator._get_model_profile`: direct match, then fuzzy match,
then family match on "haiku" / "opus" / "sonnet" or "claude", then the default
fallback. -/
def getModelProfile (model : List Char) : ModelEnergyProfile :=
  match lookupProfile model with
  | some p => p
  | none =>
    match fuzzyMatch (pyLower model) with
    | some p => p
    | none =>
      if containsSub "haiku".data (pyLower model) then getHaikuProfile
      else if containsSub "opus".data (pyLower model) then getOpusProfile
      else if containsSub "sonnet".data (pyLower model) ||
          containsSub "claude".data (pyLower model) then getSonnetProfile
      else getDefaultProfile

/-- `EcoLogitsCalculator.calculate_energy_consumption`: total energy in Wh.
Token counts are Python ints, modelled as `ℤ`. -/
def calculate_energy_consumption (model : List Char) (input_tokens output_tokens : ℤ) : ℚ :=
  let profile := getModelProfile model
  (input_tokens : ℚ) * profile.energy_per_input_token +
    (output_tokens : ℚ) * profile.energy_per_output_token + profile.base_energy

/-! ## JSON request values and `utils.validate_request_data` -/

/-- A JSON value as it can appear in a request record.  The service's
requests carry strings, integers and null; this is the value universe the
validator is analysed over. -/
inductive JVal where
  | jstr (s : List Char)
  | jint (n : ℤ)
  | jnull
  deriving DecidableEq

/-- Python truthiness of a request value (`if value:`): empty strings, zero
and `None` are falsy. -/
def truthy : JVal → Bool
  | .jstr s => !s.isEmpty
  | .jint n => n != 0
  | .jnull => false

/-- Python `isinstance(v, str)`. -/
def isStrVal : JVal → Bool
  | .jstr _ => true
  | _ => false

/-- Python `isinstance(v, int)`. -/
def isIntVal : JVal → Bool
  | .jint _ => true
  | _ => false

/-- The string payload of a value (meaningful when `isStrVal`). -/
def asStr : JVal → List Char
  | .jstr s => s
  | _ => []

/-- The integer payload of a value (meaningful when `isIntVal`). -/
def asInt : JVal → ℤ
  | .jint n => n
  | _ => 0

/-- Decimal rendering of an integer, as Python `str`/f-strings produce it. -/
def intToStr (i : ℤ) : List Char :=
  if i < 0 then '-' :: (Nat.repr i.natAbs).data else (Nat.repr i.natAbs).data

/-- How an f-string renders a request value (used for the cache key). -/
def jvalFmt : JVal → List Char
  | .jstr s => s
  | .jint n => intToStr n
  | .jnull => "None".data

/-- A request record: the five JSON fields the service reads, each possibly
absent. -/
structure RequestData where
  model : Option JVal
  input_tokens : Option JVal
  output_tokens : Option JVal
  timestamp : Option JVal
  location : Option JVal
  deriving DecidableEq

/-- Python `timestamp.replace('Z', '+00:00')`. -/
def pyReplaceZ (s : List Char) : List Char :=
  (s.map fun c => if c == 'Z' then "+00:00".data else [c]).flatten

/-- Two-digit decimal field of an ISO timestamp. -/
def twoDigits (a b : Char) : Option ℕ :=
  if a.isDigit && b.isDigit then some (10 * (a.toNat - 48) + (b.toNat - 48)) else none

/-- Gregorian leap year. -/
def isLeapYear (y : ℕ) : Bool :=
  y % 4 == 0 && (y % 100 != 0 || y % 400 == 0)

/-- Days in a month of the Gregorian calendar. -/
def daysInMonth (y m : ℕ) : ℕ :=
  if m = 1 ∨ m = 3 ∨ m = 5 ∨ m = 7 ∨ m = 8 ∨ m = 10 ∨ m = 12 then 31
  else if m = 4 ∨ m = 6 ∨ m = 9 ∨ m = 11 then 30
  else if isLeapYear y then 29
  else 28

/-- Does a list of characters spell `HH`, `HH:MM`, `HH:MM:SS` or
`HH:MM:SS.ffffff` (3- or 6-digit fraction), with in-range fields?  This is
the time-component grammar of `datetime.fromisoformat`. -/
def parseHMS : List Char → Bool
  | [h1, h2] =>
    match twoDigits h1 h2 with
    | some h => h ≤ 23
    | none => false
  | [h1, h2, ':', m1, m2] =>
    match twoDigits h1 h2, twoDigits m1 m2 with
    | some h, some m => h ≤ 23 && m ≤ 59
    | _, _ => false
  | [h1, h2, ':', m1, m2, ':', s1, s2] =>
    match twoDigits h1 h2, twoDigits m1 m2, twoDigits s1 s2 with
    | some h, some m, some s => h ≤ 23 && m ≤ 59 && s ≤ 59
    | _, _, _ => false
  | h1 :: h2 :: ':' :: m1 :: m2 :: ':' :: s1 :: s2 :: '.' :: frac =>
    match twoDigits h1 h2, twoDigits m1 m2, twoDigits s1 s2 with
    | some h, some m, some s =>
      h ≤ 23 && m ≤ 59 && s ≤ 59 && (frac.length == 3 || frac.length == 6) && frac.all Char.isDigit
    | _, _, _ => false
  | _ => false

/-- Split an ISO time string at the first `+`/`-`, separating the clock time
from the UTC-offset body, as `datetime.fromisoformat` does. -/
def splitAtSign (t : List Char) : List Char × Option (List Char) :=
  match t.findIdx? fun c => c == '+' || c == '-' with
  | none => (t, none)
  | some i => (t.take i, some (t.drop (i + 1)))

/-- The time part of an ISO timestamp: a clock time optionally followed by a
signed UTC offset whose body uses the same grammar. -/
def parseIsoTime (t : List Char) : Bool :=
  match splitAtSign t with
  | (ts, none) => parseHMS ts
  | (ts, some tz) => parseHMS ts && parseHMS tz

/-- Model of `datetime.fromisoformat` (success only): `YYYY-MM-DD`,
optionally followed by a one-character separator and a time part. -/
def parseFromIso : List Char → Bool
  | y1 :: y2 :: y3 :: y4 :: '-' :: m1 :: m2 :: '-' :: d1 :: d2 :: rest =>
    (if y1.isDigit && y2.isDigit && y3.isDigit && y4.isDigit then
      let y := 1000 * (y1.toNat - 48) + 100 * (y2.toNat - 48) + 10 * (y3.toNat - 48) +
        (y4.toNat - 48)
      match twoDigits m1 m2, twoDigits d1 d2 with
      | some m, some d =>
        (1 ≤ y && 1 ≤ m && m ≤ 12 && 1 ≤ d && d ≤ daysInMonth y m) &&
          (match rest with
           | [] => true
           | _ :: time => parseIsoTime time)
      | _, _ => false
    else false)
  | _ => false

/-- The trailing `location` check of `validate_request_data`. -/
def checkLocation (data : RequestData) : Option (List Char) :=
  match data.location with
  | some loc =>
    if truthy loc && (!isStrVal loc || (pyStrip (asStr loc)).isEmpty) then
      some "location must be a non-empty string".data
    else none
  | none => none

/-- `utils.validate_request_data`: returns the first violation's error
message, or `none` for a valid record. -/
def validate_request_data (data : RequestData) : Option (List Char) :=
  match data.model, data.input_tokens, data.output_tokens with
  | none, _, _ => some "Missing required field: model".data
  | some _, none, _ => some "Missing required field: input_tokens".data
  | some _, some _, none => some "Missing required field: output_tokens".data
  | some model, some input_tokens, some output_tokens =>
    if !isStrVal model || (pyStrip (asStr model)).isEmpty then
      some "Model must be a non-empty string".data
    else if !isIntVal input_tokens || asInt input_tokens < 0 then
      some "input_tokens must be a non-negative integer".data
    else if !isIntVal output_tokens || asInt output_tokens < 0 then
      some "output_tokens must be a non-negative integer".data
    else if 1000000 < asInt input_tokens then
      some "input_tokens exceeds reasonable limit (1M)".data
    else if 1000000 < asInt output_tokens then
      some "output_tokens exceeds reasonable limit (1M)".data
    else
      match data.timestamp with
      | some ts =>
        if truthy ts && !isStrVal ts then
          some "timestamp must be a string in ISO format".data
        else if truthy ts && !parseFromIso (pyReplaceZ (asStr ts)) then
          some "timestamp must be a valid ISO format string".data
        else checkLocation data
      | none => checkLocation data

/-! ## `carbon_intensity.py` -/

/-- Lookup in an insertion-ordered Python dict (`d.get(k)` / `k in d`). -/
def dictLookup {α : Type} (d : List (List Char × α)) (k : List Char) : Option α :=
  (d.find? fun p => p.1 == k).map Prod.snd

/-- `CarbonIntensityService.regional_fallbacks`: static regional carbon
intensities in gCO2/kWh. -/
def regional_fallbacks : List (List Char × ℚ) :=
  [("us-west-1".data, 350),
   ("us-west-2".data, 380),
   ("us-east-1".data, 420),
   ("us-east-2".data, 450),
   ("eu-west-1".data, 300),
   ("eu-central-1".data, 400),
   ("ap-southeast-1".data, 500),
   ("ap-northeast-1".data, 350),
   ("default".data, 400)]

/-- The `aws_regions` dict of `_normalize_location` (an identity mapping on
the eight AWS region codes). -/
def aws_regions : List (List Char × List Char) :=
  [("us-west-1".data, "us-west-1".data),
   ("us-west-2".data, "us-west-2".data),
   ("us-east-1".data, "us-east-1".data),
   ("us-east-2".data, "us-east-2".data),
   ("eu-west-1".data, "eu-west-1".data),
   ("eu-central-1".data, "eu-central-1".data),
   ("ap-southeast-1".data, "ap-southeast-1".data),
   ("ap-northeast-1".data, "ap-northeast-1".data)]

/-- The `location_mapping` dict of `_normalize_location`: country/state/city
aliases mapped to canonical region codes. -/
def location_mapping : List (List Char × List Char) :=
  [("california".data, "us-west-1".data),
   ("oregon".data, "us-west-2".data),
   ("washington".data, "us-west-2".data),
   ("virginia".data, "us-east-1".data),
   ("ohio".data, "us-east-2".data),
   ("ireland".data, "eu-west-1".data),
   ("germany".data, "eu-central-1".data),
   ("singapore".data, "ap-southeast-1".data),
   ("japan".data, "ap-northeast-1".data),
   ("de".data, "eu-central-1".data),
   ("ie".data, "eu-west-1".data),
   ("sg".data, "ap-southeast-1".data),
   ("jp".data, "ap-northeast-1".data)]

/-- `CarbonIntensityService._normalize_location`: lowercase and strip, then
look the result up in the AWS-region dict, then in the alias dict;
unrecognized strings pass through unchanged. -/
def normalizeLocation (location : List Char) : List Char :=
  let loc := pyStrip (pyLower location)
  match dictLookup aws_regions loc with
  | some r => r
  | none => (dictLookup location_mapping loc).getD loc

/-- `self.regional_fallbacks['default']`. -/
def defaultIntensity : ℚ := (dictLookup regional_fallbacks "default".data).getD 0

/-- `CarbonIntensityService._get_fallback_intensity`:
`regional_fallbacks.get(location, regional_fallbacks['default'])`. -/
def getFallbackIntensity (location : List Char) : ℚ :=
  (dictLookup regional_fallbacks location).getD defaultIntensity

/-- The provider configuration of a `CarbonIntensityService` instance: the
two credentials from the environment, and the outcome each provider's fetch
would produce for a normalized region (`none` models a miss: no zone
mapping, network failure, or non-success status). -/
structure ProviderEnv where
  electricity_maps_token : Option (List Char)
  watt_time_username : Option (List Char)
  emIntensity : List Char → Option ℚ
  wtIntensity : List Char → Option ℚ

/-- The service as constructed with no provider credentials in the
environment. -/
def noProviderEnv : ProviderEnv :=
  { electricity_maps_token := none
    watt_time_username := none
    emIntensity := fun _ => none
    wtIntensity := fun _ => none }

/-- `CarbonIntensityService.get_carbon_intensity`: normalize the location,
try ElectricityMaps when a token is configured, then WattTime for `us-`
regions when a username is configured (a returned value is used only when
truthy), and otherwise fall back to the static regional table. -/
def get_carbon_intensity (env : ProviderEnv) (location : List Char) : ℚ :=
  let normalized := normalizeLocation location
  let viaEM : Option ℚ :=
    match env.electricity_maps_token with
    | some _ =>
      match env.emIntensity normalized with
      | some i => if i ≠ 0 then some i else none
      | none => none
    | none => none
  match viaEM with
  | some i => i
  | none =>
    let viaWT : Option ℚ :=
      if startsWithList "us-".data normalized then
        match env.watt_time_username with
        | some _ =>
          match env.wtIntensity normalized with
          | some i => if i ≠ 0 then some i else none
          | none => none
        | none => none
      else none
    match viaWT with
    | some i => i
    | none => getFallbackIntensity normalized

/-! ## `utils.py` formatting -/

/-- The `additional_equivalents` sub-dictionary of a formatted response. -/
structure AdditionalEquivalents where
  phone_charges : ℚ
  miles_driven : ℚ
  led_hours : ℚ
  laptop_hours : ℚ
  deriving DecidableEq

/-- `utils.calculate_additional_equivalents`: CO2 grams divided by the fixed
per-activity constants, each field rounded individually. -/
def calculate_additional_equivalents (co2_grams : ℚ) : AdditionalEquivalents :=
  if co2_grams ≤ 0 then
    { phone_charges := 0, miles_driven := 0, led_hours := 0, laptop_hours := 0 }
  else
    { phone_charges := roundTo 2 (co2_grams / 8)
      miles_driven := roundTo 3 (co2_grams / 411)
      led_hours := roundTo 1 (co2_grams / 0.5)
      laptop_hours := roundTo 2 (co2_grams / 20) }

/-- Rendering of Python's `f"{x:.1f}"` for the tree-equivalent text. -/
def fixed1 (x : ℚ) : List Char :=
  let r := roundHalfEven (x * 10)
  let a := r.natAbs
  (if r < 0 then ['-'] else []) ++ (Nat.repr (a / 10)).data ++ '.' :: (Nat.repr (a % 10)).data

/-- `utils.generate_tree_equivalent_text`: tiered natural-language
description keyed on the tree-equivalent magnitude. -/
def generate_tree_equivalent_text (tree_equivalent : ℚ) : List Char :=
  if tree_equivalent ≤ 0 then "negligible environmental impact".data
  else if tree_equivalent < 0.01 then "less than 1% of what a tree absorbs daily".data
  else if tree_equivalent < 0.1 then
    intToStr (roundHalfEven (tree_equivalent * 100)) ++ "% of what a tree absorbs daily".data
  else if tree_equivalent < 1 then
    "same CO2 as ".data ++ fixed1 tree_equivalent ++ " of a tree absorbs daily".data
  else if tree_equivalent < 2 then
    "same CO2 as ".data ++ fixed1 tree_equivalent ++ " tree absorbs daily".data
  else
    "same CO2 as ".data ++ fixed1 tree_equivalent ++ " trees absorb daily".data

/-- The raw data dictionary passed to `format_environmental_response` (the
three context fields may be absent). -/
structure ImpactData where
  energy_wh : ℚ
  co2_emissions_g : ℚ
  carbon_intensity_g_kwh : ℚ
  tree_equivalent : ℚ
  source : Option JVal
  location : Option JVal
  timestamp : Option JVal

/-- A formatted environmental-impact response. -/
structure ImpactResult where
  energy_wh : ℚ
  co2_emissions_g : ℚ
  carbon_intensity_g_kwh : ℚ
  tree_equivalent : ℚ
  equivalent_text : List Char
  source : JVal
  location : JVal
  timestamp : JVal
  additional_equivalents : AdditionalEquivalents
  deriving DecidableEq

/-- `utils.format_environmental_response`.  `now` models the
`datetime.now().isoformat()` default used when no timestamp was supplied. -/
def format_environmental_response (data : ImpactData) (now : List Char) : ImpactResult :=
  { energy_wh := roundTo 6 data.energy_wh
    co2_emissions_g := roundTo 6 data.co2_emissions_g
    carbon_intensity_g_kwh := roundTo 2 data.carbon_intensity_g_kwh
    tree_equivalent := roundTo 3 data.tree_equivalent
    equivalent_text := generate_tree_equivalent_text data.tree_equivalent
    source := data.source.getD (.jstr "ecologits_methodology".data)
    location := data.location.getD (.jstr "us-west-1".data)
    timestamp := data.timestamp.getD (.jstr now)
    additional_equivalents := calculate_additional_equivalents data.co2_emissions_g }

/-! ## `app.py`: cache, single calculation, batch -/

/-- The in-memory result cache `cache_dict`, an insertion-ordered dict. -/
abbrev Cache := List (List Char × ImpactResult)

/-- Assignment `d[k] = v` on an insertion-ordered Python dict: updating an
existing key keeps its position, a new key is appended. -/
def pyDictInsert (cache : Cache) (k : List Char) (v : ImpactResult) : Cache :=
  if (cache.find? fun p => p.1 == k).isSome then
    cache.map fun p => if p.1 == k then (p.1, v) else p
  else cache ++ [(k, v)]

/-- `app.cache_result`: store the result, then, when the dict holds more
than 1000 entries, delete the 200 oldest-inserted keys. -/
def cache_result (cache_key : List Char) (result : ImpactResult) (cache : Cache) : Cache :=
  let c := pyDictInsert cache cache_key result
  if 1000 < c.length then c.drop 200 else c

/-- What the `calculate_impact` view returns: `jsonify(result)` alone on
success, or an `(jsonify({error}), status)` pair. -/
inductive FlaskResp where
  | single (body : ImpactResult)
  | withCode (error : List Char) (code : ℕ)

/-- The success body of a response, when it has one. -/
def respBody : FlaskResp → Option ImpactResult
  | .single r => some r
  | .withCode _ _ => none

/-- The cache key `f"impact:{model}:{input_tokens}:{output_tokens}:{location}"`. -/
def cacheKey (model : List Char) (input_tokens output_tokens : ℤ) (location : JVal) :
    List Char :=
  "impact:".data ++ model ++ ":".data ++ intToStr input_tokens ++ ":".data ++
    intToStr output_tokens ++ ":".data ++ jvalFmt location

/-- `app.calculate_impact` with the shared services and cache made explicit:
validate, consult the cache, compute energy, carbon intensity, CO2 and tree
equivalent, format, and store the result.  A record whose five known fields
are all absent models the empty `request.get_json()` body.  A present falsy
non-string location passes validation but crashes `location.lower()` in
Python; that path is the 500 response. -/
def calculate_impact (env : ProviderEnv) (now : List Char) (data : RequestData)
    (cache : Cache) : FlaskResp × Cache :=
  if data.model.isNone ∧ data.input_tokens.isNone ∧ data.output_tokens.isNone ∧
      data.timestamp.isNone ∧ data.location.isNone then
    (.withCode "No JSON data provided".data 400, cache)
  else
    match validate_request_data data with
    | some err => (.withCode err 400, cache)
    | none =>
      let model := asStr (data.model.getD .jnull)
      let input_tokens := asInt (data.input_tokens.getD .jnull)
      let output_tokens := asInt (data.output_tokens.getD .jnull)
      let timestamp : JVal := data.timestamp.getD (.jstr now)
      let location : JVal := data.location.getD (.jstr "us-west-1".data)
      let cache_key := cacheKey model input_tokens output_tokens location
      match dictLookup cache cache_key with
      | some cached => (.single cached, cache)
      | none =>
        match location with
        | .jstr locs =>
          let energy_wh := calculate_energy_consumption model input_tokens output_tokens
          let carbon_intensity_g_kwh := get_carbon_intensity env locs
          let co2_emissions_g := energy_wh / 1000 * carbon_intensity_g_kwh
          let tree_equivalent := co2_emissions_g / 50
          let result := format_environmental_response
            { energy_wh := energy_wh
              co2_emissions_g := co2_emissions_g
              carbon_intensity_g_kwh := carbon_intensity_g_kwh
              tree_equivalent := tree_equivalent
              source := some (.jstr "custom_ecologits_inspired".data)
              location := some location
              timestamp := some timestamp } now
          (.single result, cache_result cache_key result cache)
        | _ => (.withCode "Internal server error".data 500, cache)

/-- One entry of a batch result: a full impact result, or an error object. -/
inductive BatchEntry where
  | ok (r : ImpactResult)
  | err (msg : List Char)
  deriving DecidableEq

/-- One iteration of the `batch_calculate` loop, for the record at index
`i`: a validation failure is recorded in place; otherwise the record is run
through `calculate_impact`, whose successful return value is the bare
`jsonify(result)` response — subscripting it with `response[1]` raises
`TypeError: 'Response' object is not subscriptable`, which the per-record
handler records as this record's error entry. -/
def batchRecordStep (env : ProviderEnv) (now : List Char) (i : ℕ) (record : RequestData)
    (cache : Cache) : BatchEntry × Cache :=
  match validate_request_data record with
  | some verr =>
    (.err ("Record ".data ++ (Nat.repr i).data ++ ": ".data ++ verr), cache)
  | none =>
    match calculate_impact env now record cache with
    | (.single _, cache') =>
      (.err ("Record ".data ++ (Nat.repr i).data ++
        ": \x27Response\x27 object is not subscriptable".data), cache')
    | (.withCode emsg code, cache') =>
      if code == 200 then (.err emsg, cache')
      else (.err ("Calculation failed for record ".data ++ (Nat.repr i).data), cache')

/-- The `for i, record in enumerate(records)` loop of `batch_calculate`. -/
def batchLoop (env : ProviderEnv) (now : List Char) :
    ℕ → List RequestData → Cache → List BatchEntry × Cache
  | _, [], cache => ([], cache)
  | i, r :: rs, cache =>
    let (entry, cache') := batchRecordStep env now i r cache
    let (rest, cache'') := batchLoop env now (i + 1) rs cache'
    (entry :: rest, cache'')

/-- `app.batch_calculate`: reject batches over 1000 records, otherwise run
every record through the loop, isolating per-record failures. -/
def batch_calculate (env : ProviderEnv) (now : List Char) (records : List RequestData)
    (cache : Cache) : Except (List Char) (List BatchEntry) × Cache :=
  if 1000 < records.length then
    (.error "Batch size too large (max 1000)".data, cache)
  else
    let (results, cache') := batchLoop env now 0 records cache
    (.ok results, cache')

/-! ## Specification-side definitions

These restate parts of the specification in its own words, to be compared
with the definitions transcribed from the code. -/

/-- The three energy constants of a profile. -/
def profileConstants (p : ModelEnergyProfile) : ℚ × ℚ × ℚ :=
  (p.energy_per_input_token, p.energy_per_output_token, p.base_energy)

/-- Spec wording of step 2 of profile resolution: the first known profile
whose name matches the queried id case-insensitively as a substring in
either direction. -/
def specFuzzy (model : List Char) : Option ModelEnergyProfile :=
  (model_profiles.find? fun q =>
      containsSub (pyLower q.1) (pyLower model) ||
        containsSub (pyLower model) (pyLower q.1)).map
    Prod.snd

/-- Spec wording of profile resolution: exact table match, then fuzzy match,
then family constants for "haiku" / "opus" / "sonnet" or "claude", then the
default fallback constants. -/
def specResolveConstants (model : List Char) : ℚ × ℚ × ℚ :=
  match lookupProfile model with
  | some p => profileConstants p
  | none =>
    match specFuzzy model with
    | some p => profileConstants p
    | none =>
      if containsSub "haiku".data (pyLower model) then (0.00005, 0.00015, 0.005)
      else if containsSub "opus".data (pyLower model) then (0.0002, 0.0005, 0.02)
      else if containsSub "sonnet".data (pyLower model) ||
          containsSub "claude".data (pyLower model) then (0.0001, 0.0003, 0.01)
      else (0.0001, 0.0003, 0.01)

/-- Spec wording: `model` is a string that is non-empty after stripping
whitespace. -/
def specModelOk : Option JVal → Bool
  | some (.jstr s) => !(pyStrip s).isEmpty
  | _ => false

/-- Spec wording: a token count is a non-negative integer. -/
def specTokenOk : Option JVal → Bool
  | some (.jint n) => decide (0 ≤ n)
  | _ => false

/-- Spec wording: a token count exceeds the 1,000,000 limit. -/
def specTokenOver : Option JVal → Bool
  | some (.jint n) => decide (1000000 < n)
  | _ => false

/-- Spec wording: a present, truthy timestamp that is not a string. -/
def specTimestampBadType : Option JVal → Bool
  | some ts => truthy ts && !isStrVal ts
  | none => false

/-- Spec wording: a present, non-empty timestamp string that does not parse
as ISO-8601 after the trailing-`Z` replacement. -/
def specTimestampUnparsable : Option JVal → Bool
  | some (.jstr s) => !s.isEmpty && !parseFromIso (pyReplaceZ s)
  | _ => false

/-- Spec wording: a present, truthy location that is not a non-empty
string. -/
def specLocationBad : Option JVal → Bool
  | some loc => truthy loc && (!isStrVal loc || (pyStrip (asStr loc)).isEmpty)
  | none => false

/-- First violated rule wins: scan an ordered rule list and return the first
triggered rule's message. -/
def firstViolation : List (Bool × List Char) → Option (List Char)
  | [] => none
  | (b, m) :: rest => if b then some m else firstViolation rest

/-- The validator's rules, in order, as the specification states them. -/
def specValidate (d : RequestData) : Option (List Char) :=
  firstViolation
    [(d.model.isNone, "Missing required field: model".data),
     (d.input_tokens.isNone, "Missing required field: input_tokens".data),
     (d.output_tokens.isNone, "Missing required field: output_tokens".data),
     (!specModelOk d.model, "Model must be a non-empty string".data),
     (!specTokenOk d.input_tokens, "input_tokens must be a non-negative integer".data),
     (!specTokenOk d.output_tokens, "output_tokens must be a non-negative integer".data),
     (specTokenOver d.input_tokens, "input_tokens exceeds reasonable limit (1M)".data),
     (specTokenOver d.output_tokens, "output_tokens exceeds reasonable limit (1M)".data),
     (specTimestampBadType d.timestamp, "timestamp must be a string in ISO format".data),
     (specTimestampUnparsable d.timestamp, "timestamp must be a valid ISO format string".data),
     (specLocationBad d.location, "location must be a non-empty string".data)]

/-- All error messages the validator can produce. -/
def validatorMessages : List (List Char) :=
  ["Missing required field: model".data,
   "Missing required field: input_tokens".data,
   "Missing required field: output_tokens".data,
   "Model must be a non-empty string".data,
   "input_tokens must be a non-negative integer".data,
   "output_tokens must be a non-negative integer".data,
   "input_tokens exceeds reasonable limit (1M)".data,
   "output_tokens exceeds reasonable limit (1M)".data,
   "timestamp must be a string in ISO format".data,
   "timestamp must be a valid ISO format string".data,
   "location must be a non-empty string".data]

/-! ## Concrete example inputs -/

/-- The spec's worked example request: claude-3-5-sonnet-20241022 with 150
input and 500 output tokens from us-west-1. -/
def exampleRecord : RequestData :=
  { model := some (.jstr "claude-3-5-sonnet-20241022".data)
    input_tokens := some (.jint 150)
    output_tokens := some (.jint 500)
    timestamp := none
    location := some (.jstr "us-west-1".data) }

/-- A record with the `model` field missing. -/
def missingModelRecord : RequestData :=
  { model := none
    input_tokens := some (.jint 1)
    output_tokens := some (.jint 1)
    timestamp := none
    location := none }

/-- A record whose timestamp is present but the empty string. -/
def emptyTsRecord : RequestData :=
  { model := some (.jstr "claude-3-5-sonnet-20241022".data)
    input_tokens := some (.jint 1)
    output_tokens := some (.jint 1)
    timestamp := some (.jstr [])
    location := none }

/-- Raw impact data with all four quantities 1 and no context fields. -/
def unitImpactData : ImpactData := ⟨1, 1, 1, 1, none, none, none⟩

/-- Raw impact data with all four quantities 0 and no context fields. -/
def zeroImpactData : ImpactData := ⟨0, 0, 0, 0, none, none, none⟩

/-- Raw impact data that carries its own timestamp. -/
def stampedImpactData : ImpactData :=
  ⟨1, 1, 1, 1, none, none, some (.jstr "t".data)⟩

/-- The `ImpactResult` the example request produces (with no providers, an
empty cache, and `"T"` as the current time). -/
def exampleResult : ImpactResult :=
  format_environmental_response
    { energy_wh := calculate_energy_consumption "claude-3-5-sonnet-20241022".data 150 500
      co2_emissions_g := calculate_energy_consumption "claude-3-5-sonnet-20241022".data 150 500 /
        1000 * get_carbon_intensity noProviderEnv "us-west-1".data
      carbon_intensity_g_kwh := get_carbon_intensity noProviderEnv "us-west-1".data
      tree_equivalent := calculate_energy_consumption "claude-3-5-sonnet-20241022".data 150 500 /
        1000 * get_carbon_intensity noProviderEnv "us-west-1".data / 50
      source := some (.jstr "custom_ecologits_inspired".data)
      location := some (.jstr "us-west-1".data)
      timestamp := some (.jstr "T".data) } "T".data

/-! ## Auxiliary lemmas and the verified properties -/

theorem toNatOfNatValid (n : ℕ) (h : n.isValidChar) : (Char.ofNat n).toNat = n := by
  rw [Char.ofNat, dif_pos h]
  simp [Char.ofNatAux, Char.toNat, UInt32.toNat, BitVec.toNat_ofNatLt]

theorem toLowerTwice (c : Char) : c.toLower.toLower = c.toLower := by
  show (if (c.toLower).toNat ≥ 65 ∧ (c.toLower).toNat ≤ 90 then
      Char.ofNat ((c.toLower).toNat + 32) else c.toLower) = c.toLower
  by_cases h : c.toNat ≥ 65 ∧ c.toNat ≤ 90
  · have hlow : c.toLower = Char.ofNat (c.toNat + 32) := by
      show (if c.toNat ≥ 65 ∧ c.toNat ≤ 90 then Char.ofNat (c.toNat + 32) else c) = _
      rw [if_pos h]
    have hv : (c.toNat + 32).isValidChar := by
      unfold Nat.isValidChar
      omega
    have ht : (c.toLower).toNat = c.toNat + 32 := by rw [hlow, toNatOfNatValid _ hv]
    rw [if_neg]
    omega
  · have hlow : c.toLower = c := by
      show (if c.toNat ≥ 65 ∧ c.toNat ≤ 90 then Char.ofNat (c.toNat + 32) else c) = _
      rw [if_neg h]
    rw [hlow, if_neg h]

theorem isSpaceChar_toLower (c : Char) : isSpaceChar c.toLower = isSpaceChar c := by
  by_cases h : c.toNat ≥ 65 ∧ c.toNat ≤ 90
  · have hlow : c.toLower = Char.ofNat (c.toNat + 32) := by
      show (if c.toNat ≥ 65 ∧ c.toNat ≤ 90 then Char.ofNat (c.toNat + 32) else c) = _
      rw [if_pos h]
    have hv : (c.toNat + 32).isValidChar := by
      unfold Nat.isValidChar
      omega
    have ht : (c.toLower).toNat = c.toNat + 32 := by rw [hlow, toNatOfNatValid _ hv]
    have h1 : isSpaceChar c.toLower = false := by
      simp only [isSpaceChar, ht, Bool.or_eq_false_iff, decide_eq_false_iff_not]
      omega
    have h2 : isSpaceChar c = false := by
      simp only [isSpaceChar, Bool.or_eq_false_iff, decide_eq_false_iff_not]
      omega
    rw [h1, h2]
  · have hlow : c.toLower = c := by
      show (if c.toNat ≥ 65 ∧ c.toNat ≤ 90 then Char.ofNat (c.toNat + 32) else c) = _
      rw [if_neg h]
    rw [hlow]

theorem pyLower_idem (s : List Char) : pyLower (pyLower s) = pyLower s := by
  simp only [pyLower, List.map_map]
  exact List.map_congr_left fun a _ => toLowerTwice a

theorem lstripL_rstripL (t : List Char) (h : lstripL t = t) :
    lstripL (rstripL t) = rstripL t := by
  obtain ⟨v, hv⟩ : rstripL t <+: t := List.rdropWhile_prefix isSpaceChar t
  rcases hu : rstripL t with _ | ⟨a, u⟩
  · rfl
  · rw [hu] at hv
    have hta : t = a :: (u ++ v) := by rw [← hv]; simp
    have hpa : isSpaceChar a = false := by
      by_contra hcon
      have hpa' : isSpaceChar a = true := by
        cases hx : isSpaceChar a
        · exact absurd hx hcon
        · rfl
      rw [hta] at h
      rw [show lstripL (a :: (u ++ v)) = lstripL (u ++ v) by
        simp [lstripL, List.dropWhile_cons_of_pos, hpa']] at h
      have hle : (lstripL (u ++ v)).length ≤ (u ++ v).length :=
        (List.dropWhile_suffix isSpaceChar).length_le
      have hlen := congrArg List.length h
      rw [List.length_cons, List.length_append] at hlen
      rw [List.length_append] at hle
      omega
    show lstripL (a :: u) = a :: u
    simp [lstripL, List.dropWhile_cons_of_neg, hpa]

theorem pyStrip_idem (s : List Char) : pyStrip (pyStrip s) = pyStrip s := by
  show rstripL (lstripL (rstripL (lstripL s))) = rstripL (lstripL s)
  rw [lstripL_rstripL (lstripL s) (by simpa [lstripL] using List.dropWhile_idempotent isSpaceChar s)]
  show (rstripL (lstripL s)).rdropWhile isSpaceChar = rstripL (lstripL s)
  show ((lstripL s).rdropWhile isSpaceChar).rdropWhile isSpaceChar = (lstripL s).rdropWhile isSpaceChar
  exact List.rdropWhile_idempotent isSpaceChar (lstripL s)

theorem pyLower_pyStrip (s : List Char) : pyLower (pyStrip s) = pyStrip (pyLower s) := by
  have hp : isSpaceChar ∘ Char.toLower = isSpaceChar := funext isSpaceChar_toLower
  have hcomm : ∀ l : List Char,
      (l.dropWhile isSpaceChar).map Char.toLower =
        (l.map Char.toLower).dropWhile isSpaceChar := by
    intro l
    rw [List.dropWhile_map, hp]
  show ((((s.dropWhile isSpaceChar).reverse.dropWhile isSpaceChar).reverse).map Char.toLower) =
    (((s.map Char.toLower).dropWhile isSpaceChar).reverse.dropWhile isSpaceChar).reverse
  rw [List.map_reverse, hcomm, List.map_reverse, hcomm]

theorem lowerStrip_idem (s : List Char) :
    pyStrip (pyLower (pyStrip (pyLower s))) = pyStrip (pyLower s) := by
  rw [pyLower_pyStrip (pyLower s), pyLower_idem, pyStrip_idem]

theorem aws_fixed : ∀ q ∈ aws_regions, normalizeLocation q.2 = q.2 := by decide

theorem mapping_fixed : ∀ q ∈ location_mapping, normalizeLocation q.2 = q.2 := by decide

theorem norm_of_aws (t : List Char) (r : List Char)
    (h : dictLookup aws_regions (pyStrip (pyLower t)) = some r) : normalizeLocation t = r := by
  simp only [normalizeLocation, h]

theorem norm_of_mapping (t r : List Char)
    (h1 : dictLookup aws_regions (pyStrip (pyLower t)) = none)
    (h2 : dictLookup location_mapping (pyStrip (pyLower t)) = some r) :
    normalizeLocation t = r := by
  simp only [normalizeLocation, h1, h2, Option.getD_some]

theorem norm_passthrough (t : List Char)
    (h1 : dictLookup aws_regions (pyStrip (pyLower t)) = none)
    (h2 : dictLookup location_mapping (pyStrip (pyLower t)) = none) :
    normalizeLocation t = pyStrip (pyLower t) := by
  simp only [normalizeLocation, h1, h2, Option.getD_none]

theorem dict_val_mem {α : Type} (d : List (List Char × α)) (k : List Char) (r : α)
    (h : dictLookup d k = some r) : ∃ q ∈ d, q.2 = r := by
  rcases Option.map_eq_some'.mp h with ⟨q, hq, hr⟩
  exact ⟨q, List.mem_of_find?_eq_some hq, hr⟩

/-- C10: location normalization is idempotent - normalizing an already
normalized location returns it unchanged, so canonical region codes and
passed-through strings are fixed points. -/
theorem C10_normalize_idempotent (s : List Char) :
    normalizeLocation (normalizeLocation s) = normalizeLocation s := by
  rcases h1 : dictLookup aws_regions (pyStrip (pyLower s)) with _ | r
  · rcases h2 : dictLookup location_mapping (pyStrip (pyLower s)) with _ | r
    · rw [norm_passthrough s h1 h2]
      rw [norm_passthrough (pyStrip (pyLower s)) (by rwa [lowerStrip_idem])
        (by rwa [lowerStrip_idem]), lowerStrip_idem]
    · rw [norm_of_mapping s r h1 h2]
      obtain ⟨q, hq, hr⟩ := dict_val_mem _ _ _ h2
      rw [← hr]
      exact mapping_fixed q hq
  · rw [norm_of_aws s r h1]
    obtain ⟨q, hq, hr⟩ := dict_val_mem _ _ _ h1
    rw [← hr]
    exact aws_fixed q hq


theorem model_profiles_eq : model_profiles =
    [("claude-3-5-sonnet-20241022".data, claude_3_5_sonnet_base),
     ("claude-3-5-sonnet-20240620".data, claude_3_5_sonnet_base),
     ("claude-3-5-sonnet".data, claude_3_5_sonnet_base),
     ("claude-3-sonnet-20240229".data, claude_3_5_sonnet_base),
     ("claude-3-haiku-20240307".data,
      { name := "claude-3-haiku-20240307".data
        energy_per_input_token := 0.00005
        energy_per_output_token := 0.00015
        base_energy := 0.005
        source := "ecologits_estimate".data }),
     ("claude-3-opus-20240229".data,
      { name := "claude-3-opus-20240229".data
        energy_per_input_token := 0.0002
        energy_per_output_token := 0.0005
        base_energy := 0.02
        source := "ecologits_estimate".data })] := rfl

theorem model_profiles_nonneg : ∀ q ∈ model_profiles,
    0 ≤ q.2.energy_per_input_token ∧ 0 ≤ q.2.energy_per_output_token ∧ 0 ≤ q.2.base_energy := by
  intro q hq
  rw [model_profiles_eq] at hq
  fin_cases hq <;> norm_num [claude_3_5_sonnet_base]

/-- C1: for every model id present in the known profile table and non-negative
token counts, the energy calculation returns exactly
`input_tokens * energy_per_input_token + output_tokens * energy_per_output_token
+ base_energy` for that model's profile, and the value is non-negative. -/
theorem C1_energy_formula (model : List Char) (p : ModelEnergyProfile) (i o : ℤ)
    (hp : lookupProfile model = some p) (hi : 0 ≤ i) (ho : 0 ≤ o) :
    calculate_energy_consumption model i o =
      (i : ℚ) * p.energy_per_input_token + (o : ℚ) * p.energy_per_output_token + p.base_energy ∧
    0 ≤ calculate_energy_consumption model i o := by
  have hg : getModelProfile model = p := by
    unfold getModelProfile
    rw [hp]
  have he : calculate_energy_consumption model i o =
      (i : ℚ) * p.energy_per_input_token + (o : ℚ) * p.energy_per_output_token + p.base_energy := by
    unfold calculate_energy_consumption
    rw [hg]
  refine ⟨he, ?_⟩
  rw [he]
  obtain ⟨q, hq, h2⟩ := dict_val_mem _ _ _ hp
  have hnn := model_profiles_nonneg q hq
  rw [h2] at hnn
  have hi' : (0 : ℚ) ≤ (i : ℚ) := by exact_mod_cast hi
  have ho' : (0 : ℚ) ≤ (o : ℚ) := by exact_mod_cast ho
  exact add_nonneg (add_nonneg (mul_nonneg hi' hnn.1) (mul_nonneg ho' hnn.2.1)) hnn.2.2

/-- Witness for C1 at the spec's worked example: 150 input and 500 output
tokens on claude-3-5-sonnet-20241022. -/
theorem C1_energy_formula_witness :
    calculate_energy_consumption "claude-3-5-sonnet-20241022".data 150 500 =
      (150 : ℚ) * claude_3_5_sonnet_base.energy_per_input_token +
        (500 : ℚ) * claude_3_5_sonnet_base.energy_per_output_token +
        claude_3_5_sonnet_base.base_energy ∧
    0 ≤ calculate_energy_consumption "claude-3-5-sonnet-20241022".data 150 500 :=
  C1_energy_formula "claude-3-5-sonnet-20241022".data claude_3_5_sonnet_base 150 500 rfl
    (by norm_num) (by norm_num)

/-- C3 (amended): profile resolution follows exact match, then
case-insensitive substring match in either direction, then family match, then
the default fallback - the resolved constants agree with the specification's
resolution order everywhere; and for a model id that matches neither exactly
nor fuzzily, the family constants are exactly the haiku / opus / default
triples. -/
theorem C3_profile_resolution :
    (∀ model : List Char, profileConstants (getModelProfile model) = specResolveConstants model) ∧
    (∀ model : List Char, lookupProfile model = none → fuzzyMatch (pyLower model) = none →
      ((containsSub "haiku".data (pyLower model) = true →
          profileConstants (getModelProfile model) = (0.00005, 0.00015, 0.005)) ∧
       (containsSub "haiku".data (pyLower model) = false →
          containsSub "opus".data (pyLower model) = true →
          profileConstants (getModelProfile model) = (0.0002, 0.0005, 0.02)) ∧
       (containsSub "haiku".data (pyLower model) = false →
          containsSub "opus".data (pyLower model) = false →
          containsSub "sonnet".data (pyLower model) = false →
          containsSub "claude".data (pyLower model) = false →
          profileConstants (getModelProfile model) = (0.0001, 0.0003, 0.01)))) := by
  constructor
  · intro m
    unfold getModelProfile specResolveConstants
    rw [show specFuzzy m = fuzzyMatch (pyLower m) from rfl]
    cases hl : lookupProfile m with
    | some p => rfl
    | none =>
      cases hf : fuzzyMatch (pyLower m) with
      | some p => rfl
      | none => split_ifs <;> rfl
  · intro m h1 h2
    have hbody : getModelProfile m =
        (if containsSub "haiku".data (pyLower m) then getHaikuProfile
         else if containsSub "opus".data (pyLower m) then getOpusProfile
         else if containsSub "sonnet".data (pyLower m) || containsSub "claude".data (pyLower m) then
           getSonnetProfile
         else getDefaultProfile) := by
      unfold getModelProfile
      rw [h1, h2]
    refine ⟨?_, ?_, ?_⟩
    · intro hh
      rw [hbody, if_pos hh]
      rfl
    · intro hh ho
      rw [hbody, if_neg (by simp [hh]), if_pos ho]
      rfl
    · intro hh ho hs hc
      rw [hbody, if_neg (by simp [hh]), if_neg (by simp [ho]), if_neg (by simp [hs, hc])]
      rfl

/-- Witness for C3: an unknown id containing "haiku" with no fuzzy match
resolves to the haiku fallback constants. -/
theorem C3_profile_resolution_witness :
    profileConstants (getModelProfile "my-haiku-model".data) = (0.00005, 0.00015, 0.005) :=
  (C3_profile_resolution.2 "my-haiku-model".data rfl rfl).1 rfl

/-- C3 counterexample: "claude-3-5-sonnet-haiku" is not in the profile table
and contains "haiku", yet its resolved constants are not the haiku fallback
constants, because the fuzzy-match step resolves it to a sonnet profile
first. -/
theorem C3_counterexample :
    containsSub "haiku".data (pyLower "claude-3-5-sonnet-haiku".data) = true ∧
    lookupProfile "claude-3-5-sonnet-haiku".data = none ∧
    profileConstants (getModelProfile "claude-3-5-sonnet-haiku".data) ≠
      (0.00005, 0.00015, 0.005) := by
  refine ⟨rfl, rfl, ?_⟩
  have h : profileConstants (getModelProfile "claude-3-5-sonnet-haiku".data) =
      (0.0001, 0.0003, 0.01) := rfl
  rw [h]
  intro hEq
  have h1 : (0.0001 : ℚ) = 0.00005 := congrArg Prod.fst hEq
  exact absurd h1 (by norm_num)

/-- C4: when both providers miss everywhere, carbon-intensity resolution for
a location whose canonical form is absent from the regional table returns
exactly the global default 400 gCO2/kWh, and the resolved intensity is
strictly positive for every location. -/
theorem C4_fallback :
    ∀ env : ProviderEnv, (∀ l, env.emIntensity l = none) → (∀ l, env.wtIntensity l = none) →
    ∀ loc : List Char,
      (dictLookup regional_fallbacks (normalizeLocation loc) = none →
        get_carbon_intensity env loc = 400) ∧
      0 < get_carbon_intensity env loc := by
  intro env hem hwt loc
  have hval : get_carbon_intensity env loc = getFallbackIntensity (normalizeLocation loc) := by
    simp only [get_carbon_intensity, hem, hwt]
    cases env.electricity_maps_token <;> cases env.watt_time_username <;> simp
  rw [hval]
  constructor
  · intro hnone
    unfold getFallbackIntensity
    rw [hnone]
    rfl
  · unfold getFallbackIntensity
    cases hl : dictLookup regional_fallbacks (normalizeLocation loc) with
    | none =>
      rw [Option.getD_none]
      have hd : defaultIntensity = 400 := rfl
      rw [hd]
      norm_num
    | some v =>
      obtain ⟨q, hq, h2⟩ := dict_val_mem _ _ _ hl
      rw [Option.getD_some, ← h2]
      have hpos : ∀ p ∈ regional_fallbacks, (0 : ℚ) < p.2 := by
        intro p hp
        fin_cases hp <;> norm_num
      exact hpos q hq

/-- Witness for C4 at the unknown location "mars". -/
theorem C4_fallback_witness :
    get_carbon_intensity noProviderEnv "mars".data = 400 ∧
    0 < get_carbon_intensity noProviderEnv "mars".data :=
  ⟨(C4_fallback noProviderEnv (fun _ => rfl) (fun _ => rfl) "mars".data).1 rfl,
   (C4_fallback noProviderEnv (fun _ => rfl) (fun _ => rfl) "mars".data).2⟩


theorem roundHalfEven_eq_low (x : ℚ) (f : ℤ) (h1 : (f : ℚ) ≤ x) (h2 : x < (f : ℚ) + 1/2) :
    roundHalfEven x = f := by
  have hfl : ⌊x⌋ = f := Int.floor_eq_iff.mpr ⟨h1, by linarith⟩
  unfold roundHalfEven
  rw [hfl, if_pos (by linarith)]

theorem roundHalfEven_eq_high (x : ℚ) (f : ℤ) (h1 : (f : ℚ) + 1/2 < x) (h2 : x < (f : ℚ) + 1) :
    roundHalfEven x = f + 1 := by
  have hfl : ⌊x⌋ = f := Int.floor_eq_iff.mpr ⟨by linarith, h2⟩
  unfold roundHalfEven
  rw [hfl, if_neg (by linarith), if_pos (by linarith)]

theorem roundTo_eq_low (n : ℕ) (x : ℚ) (f : ℤ) (h1 : (f : ℚ) ≤ x * 10 ^ n)
    (h2 : x * 10 ^ n < (f : ℚ) + 1/2) : roundTo n x = (f : ℚ) / 10 ^ n := by
  unfold roundTo
  rw [roundHalfEven_eq_low (x * 10 ^ n) f h1 h2]

theorem roundTo_eq_high (n : ℕ) (x : ℚ) (f : ℤ) (h1 : (f : ℚ) + 1/2 < x * 10 ^ n)
    (h2 : x * 10 ^ n < (f : ℚ) + 1) : roundTo n x = ((f : ℚ) + 1) / 10 ^ n := by
  unfold roundTo
  rw [roundHalfEven_eq_high (x * 10 ^ n) f h1 h2]
  push_cast
  ring

theorem exampleEnergy :
    calculate_energy_consumption "claude-3-5-sonnet-20241022".data 150 500 = 0.175 := by
  have hg : getModelProfile "claude-3-5-sonnet-20241022".data = claude_3_5_sonnet_base := rfl
  unfold calculate_energy_consumption
  rw [hg]
  norm_num [claude_3_5_sonnet_base]

theorem exampleCI : get_carbon_intensity noProviderEnv "us-west-1".data = 350 := rfl

/-- C9: formatting is deterministic - with the timestamp context field
present, the formatter's output does not depend on the ambient current time,
so equal inputs give identical rounded fields and equivalent text. -/
theorem C9_deterministic (d : ImpactData) (ts : JVal) (now1 now2 : List Char)
    (h : d.timestamp = some ts) :
    format_environmental_response d now1 = format_environmental_response d now2 := by
  unfold format_environmental_response
  rw [h]
  rfl

/-- Witness for C9 on concrete impact data with a timestamp. -/
theorem C9_deterministic_witness :
    format_environmental_response stampedImpactData "a".data =
      format_environmental_response stampedImpactData "b".data :=
  C9_deterministic stampedImpactData (.jstr "t".data) "a".data "b".data rfl

/-- C8 (amended): the formatter rounds energy to 6 decimals, CO2 to 6,
carbon intensity to 2 and tree equivalent to 3; `additional_equivalents`
divides the raw CO2 grams by 8, 411, 0.5 and 20 and rounds the fields to 2,
3, 1 and 2 decimals respectively (zeros when CO2 is not positive). -/
theorem C8_rounding (d : ImpactData) (now : List Char) :
    (format_environmental_response d now).energy_wh = roundTo 6 d.energy_wh ∧
    (format_environmental_response d now).co2_emissions_g = roundTo 6 d.co2_emissions_g ∧
    (format_environmental_response d now).carbon_intensity_g_kwh =
      roundTo 2 d.carbon_intensity_g_kwh ∧
    (format_environmental_response d now).tree_equivalent = roundTo 3 d.tree_equivalent ∧
    (format_environmental_response d now).additional_equivalents =
      calculate_additional_equivalents d.co2_emissions_g ∧
    (0 < d.co2_emissions_g →
      calculate_additional_equivalents d.co2_emissions_g =
        { phone_charges := roundTo 2 (d.co2_emissions_g / 8)
          miles_driven := roundTo 3 (d.co2_emissions_g / 411)
          led_hours := roundTo 1 (d.co2_emissions_g / 0.5)
          laptop_hours := roundTo 2 (d.co2_emissions_g / 20) }) ∧
    (d.co2_emissions_g ≤ 0 →
      calculate_additional_equivalents d.co2_emissions_g =
        { phone_charges := 0, miles_driven := 0, led_hours := 0, laptop_hours := 0 }) := by
  refine ⟨rfl, rfl, rfl, rfl, rfl, ?_, ?_⟩
  · intro h
    unfold calculate_additional_equivalents
    rw [if_neg (not_le.mpr h)]
  · intro h
    unfold calculate_additional_equivalents
    rw [if_pos h]

/-- Witness for C8 at concrete impact data with CO2 of 1 g and 0 g. -/
theorem C8_rounding_witness :
    (format_environmental_response unitImpactData "T".data).energy_wh = roundTo 6 1 ∧
    calculate_additional_equivalents (1 : ℚ) =
      ⟨roundTo 2 (1 / 8), roundTo 3 (1 / 411), roundTo 1 (1 / 0.5), roundTo 2 (1 / 20)⟩ ∧
    calculate_additional_equivalents (0 : ℚ) = ⟨0, 0, 0, 0⟩ :=
  ⟨(C8_rounding unitImpactData "T".data).1,
   (C8_rounding unitImpactData "T".data).2.2.2.2.2.1 (by norm_num [unitImpactData]),
   (C8_rounding zeroImpactData "T".data).2.2.2.2.2.2 (by norm_num [zeroImpactData])⟩

/-- C8 counterexample: at 0.07 g of CO2 the `led_hours` field is the
quotient rounded to 1 decimal (0.1), which differs from both its 2-decimal
and 3-decimal roundings (0.14), so the field is not rounded to 2-3
decimals. -/
theorem C8_counterexample :
    (calculate_additional_equivalents 0.07).led_hours = roundTo 1 ((0.07 : ℚ) / 0.5) ∧
    roundTo 1 ((0.07 : ℚ) / 0.5) ≠ roundTo 2 ((0.07 : ℚ) / 0.5) ∧
    roundTo 1 ((0.07 : ℚ) / 0.5) ≠ roundTo 3 ((0.07 : ℚ) / 0.5) := by
  have h1 : roundTo 1 ((0.07 : ℚ) / 0.5) = (1 : ℚ) / 10 ^ (1 : ℕ) :=
    roundTo_eq_low 1 _ 1 (by norm_num) (by norm_num)
  have h2 : roundTo 2 ((0.07 : ℚ) / 0.5) = (14 : ℚ) / 10 ^ (2 : ℕ) :=
    roundTo_eq_low 2 _ 14 (by norm_num) (by norm_num)
  have h3 : roundTo 3 ((0.07 : ℚ) / 0.5) = (140 : ℚ) / 10 ^ (3 : ℕ) :=
    roundTo_eq_low 3 _ 140 (by norm_num) (by norm_num)
  refine ⟨?_, ?_, ?_⟩
  · unfold calculate_additional_equivalents
    rw [if_neg (by norm_num)]
  · rw [h1, h2]
    norm_num
  · rw [h1, h3]
    norm_num


/-- C2 (amended): for every request served from an empty cache, the returned
result's `co2_emissions_g` is the raw CO2 value rounded to 6 decimals and its
`tree_equivalent` is exactly that raw CO2 divided by 50 and then rounded to 3
decimals; the division by 50 is exact before formatting. -/
theorem C2_tree_rounding (env : ProviderEnv) (now : List Char) (data : RequestData)
    (r : ImpactResult) (h : respBody (calculate_impact env now data []).1 = some r) :
    ∃ co2 : ℚ, r.co2_emissions_g = roundTo 6 co2 ∧ r.tree_equivalent = roundTo 3 (co2 / 50) := by
  simp only [calculate_impact] at h
  split at h
  · simp [respBody] at h
  · split at h
    · simp [respBody] at h
    · split at h
      · next heq => simp [dictLookup] at heq
      · split at h
        · next locs heq =>
          simp only [respBody, Option.some.injEq] at h
          refine ⟨calculate_energy_consumption (asStr ((data.model).getD .jnull))
            (asInt ((data.input_tokens).getD .jnull)) (asInt ((data.output_tokens).getD .jnull)) /
              1000 * get_carbon_intensity env locs, ?_, ?_⟩
          · rw [← h]
            rfl
          · rw [← h]
            rfl
        · simp [respBody] at h

/-- Witness for C2 at the spec's worked example request. -/
theorem C2_tree_rounding_witness :
    ∃ co2 : ℚ, exampleResult.co2_emissions_g = roundTo 6 co2 ∧
      exampleResult.tree_equivalent = roundTo 3 (co2 / 50) :=
  C2_tree_rounding noProviderEnv "T".data exampleRecord exampleResult rfl

/-- C2 counterexample: on the spec's own worked example the returned result
has `tree_equivalent = 0.001` and `co2_emissions_g = 0.06125`, and
`0.001 ≠ 0.06125 / 50`, so the returned fields do not satisfy the exact
relation - rounding to 3 decimals breaks it. -/
theorem C2_counterexample :
    exampleResult.tree_equivalent = 0.001 ∧ exampleResult.co2_emissions_g = 0.06125 ∧
    (0.001 : ℚ) ≠ (0.06125 : ℚ) / 50 := by
  have hco2 : calculate_energy_consumption "claude-3-5-sonnet-20241022".data 150 500 / 1000 *
      get_carbon_intensity noProviderEnv "us-west-1".data = 0.06125 := by
    rw [exampleEnergy, exampleCI]
    norm_num
  refine ⟨?_, ?_, by norm_num⟩
  · have h1 : exampleResult.tree_equivalent =
        roundTo 3 (calculate_energy_consumption "claude-3-5-sonnet-20241022".data 150 500 / 1000 *
          get_carbon_intensity noProviderEnv "us-west-1".data / 50) := rfl
    rw [h1, hco2]
    rw [roundTo_eq_low 3 _ 1 (by norm_num) (by norm_num)]
    norm_num
  · have h2 : exampleResult.co2_emissions_g =
        roundTo 6 (calculate_energy_consumption "claude-3-5-sonnet-20241022".data 150 500 / 1000 *
          get_carbon_intensity noProviderEnv "us-west-1".data) := rfl
    rw [h2, hco2]
    rw [roundTo_eq_low 6 _ 61250 (by norm_num) (by norm_num)]
    norm_num


theorem validate_eq_spec (d : RequestData) : validate_request_data d = specValidate d := by
  obtain ⟨m, i, o, ts, loc⟩ := d
  cases m with
  | none => rfl
  | some mv =>
  cases i with
  | none => rfl
  | some iv =>
  cases o with
  | none => rfl
  | some ov =>
  simp only [validate_request_data, specValidate, firstViolation, Option.isNone_some,
    Bool.false_eq_true, if_false]
  have e1 : (!isStrVal mv || (pyStrip (asStr mv)).isEmpty) = !specModelOk (some mv) := by
    cases mv <;> simp [isStrVal, asStr, specModelOk]
  have e2 : ∀ v : JVal, (!isIntVal v || decide (asInt v < 0)) = !specTokenOk (some v) := by
    intro v
    cases v with
    | jint n =>
      by_cases hn : (0 : ℤ) ≤ n
      · simp [isIntVal, asInt, specTokenOk, hn]
      · simp [isIntVal, asInt, specTokenOk, hn]
        omega
    | jstr s => simp [isIntVal, specTokenOk]
    | jnull => simp [isIntVal, specTokenOk]
  have e3 : ∀ v : JVal, (1000000 < asInt v) ↔ specTokenOver (some v) = true := by
    intro v
    cases v <;> simp [asInt, specTokenOver]
  rw [e1, e2 iv, e2 ov]
  simp only [e3 iv, e3 ov]
  by_cases h4 : specModelOk (some mv)
  · simp only [h4, Bool.not_true, Bool.false_eq_true, if_false]
    by_cases h5 : specTokenOk (some iv)
    · simp only [h5, Bool.not_true, Bool.false_eq_true, if_false]
      by_cases h6 : specTokenOk (some ov)
      · simp only [h6, Bool.not_true, Bool.false_eq_true, if_false]
        by_cases h7 : specTokenOver (some iv) <;>
          simp only [h7, if_true, if_false, Bool.true_eq_false, Bool.false_eq_true,
            eq_self_iff_true, if_pos, reduceIte]
        by_cases h8 : specTokenOver (some ov) <;>
          simp only [h8, reduceIte]
        cases ts with
        | none =>
          simp only [specTimestampBadType, specTimestampUnparsable, Bool.false_eq_true, reduceIte]
          cases loc with
          | none => rfl
          | some lv => simp only [checkLocation, specLocationBad]
        | some tsv =>
          cases tsv with
          | jstr s =>
            simp only [specTimestampBadType, specTimestampUnparsable, truthy, isStrVal, asStr,
              Bool.not_true, Bool.and_false, Bool.false_eq_true, reduceIte]
            by_cases h10 : (!s.isEmpty && !parseFromIso (pyReplaceZ s)) = true
            · simp only [h10, reduceIte]
            · simp only [h10, reduceIte]
              cases loc with
              | none => rfl
              | some lv => simp only [checkLocation, specLocationBad]
          | jint n =>
            by_cases hn : n = 0
            · subst hn
              cases loc with
              | none =>
                simp [specTimestampBadType, specTimestampUnparsable, truthy, isStrVal,
                  checkLocation, specLocationBad]
              | some lv =>
                simp [specTimestampBadType, specTimestampUnparsable, truthy, isStrVal,
                  checkLocation, specLocationBad]
            · simp [specTimestampBadType, specTimestampUnparsable, truthy, isStrVal, hn]
          | jnull =>
            simp only [specTimestampBadType, specTimestampUnparsable, truthy, isStrVal,
              Bool.false_and, Bool.false_eq_true, reduceIte]
            cases loc with
            | none => rfl
            | some lv => simp only [checkLocation, specLocationBad]
      · simp only [h6]
        simp
    · simp only [h5]
      simp
  · simp only [h4]
    simp


/-- C5 (amended): the validator equals the specification's ordered rule
list - first violation wins - where empty-string or null optional fields are
skipped rather than rejected, and all error messages are pairwise
distinct. -/
theorem C5_validator :
    (∀ d : RequestData, validate_request_data d = specValidate d) ∧
    validatorMessages.Pairwise (· ≠ ·) :=
  ⟨validate_eq_spec, by decide⟩

/-- C5 counterexample: a record whose timestamp is present but the empty
string - which does not parse as ISO-8601 - passes validation, because the
code only checks truthy timestamps. -/
theorem C5_counterexample :
    emptyTsRecord.timestamp = some (.jstr []) ∧
    parseFromIso (pyReplaceZ (asStr (.jstr []))) = false ∧
    validate_request_data emptyTsRecord = none :=
  ⟨rfl, rfl, rfl⟩

theorem batchLoop_length (env : ProviderEnv) (now : List Char) :
    ∀ (rs : List RequestData) (i : ℕ) (cache : Cache),
      ((batchLoop env now i rs cache).1).length = rs.length := by
  intro rs
  induction rs with
  | nil =>
    intro i cache
    rfl
  | cons r rest ih =>
    intro i cache
    simp [batchLoop, ih]

/-- C6: evaluating the batch endpoint on one valid record followed by one
record missing `model` yields two entries in order, but the first is an
error entry produced by subscripting the bare success Response
(`'Response' object is not subscriptable`) instead of a full result; the
result list always has exactly one entry per input record. -/
theorem C6_batch :
    (batch_calculate noProviderEnv "T".data [exampleRecord, missingModelRecord] []).1 =
      .ok [.err "Record 0: \x27Response\x27 object is not subscriptable".data,
           .err "Record 1: Missing required field: model".data] ∧
    (∀ (env : ProviderEnv) (now : List Char) (i : ℕ) (records : List RequestData)
        (cache : Cache), ((batchLoop env now i records cache).1).length = records.length) :=
  ⟨rfl, fun env now i records cache => batchLoop_length env now records i cache⟩

theorem pyDictInsert_new (c : Cache) (k : List Char) (v : ImpactResult)
    (h : ∀ p ∈ c, p.1 ≠ k) : pyDictInsert c k v = c ++ [(k, v)] := by
  unfold pyDictInsert
  have hf : c.find? (fun p => p.1 == k) = none :=
    List.find?_eq_none.mpr fun x hx => by simpa using h x hx
  rw [hf]
  rfl

theorem cache_result_bound (k : List Char) (v : ImpactResult) (c : Cache)
    (h : c.length ≤ 1000) : (cache_result k v c).length ≤ 1000 := by
  have hlen : (pyDictInsert c k v).length ≤ c.length + 1 := by
    unfold pyDictInsert
    split
    · simp
    · simp
  simp only [cache_result]
  split
  · next hgt =>
    simp only [List.length_drop]
    omega
  · next hle => omega

theorem suffix_append_single {α : Type} {s t : List α} (h : s <:+ t) (a : α) :
    s ++ [a] <:+ t ++ [a] := by
  obtain ⟨u, hu⟩ := h
  exact ⟨u, by rw [← List.append_assoc, hu]⟩

theorem insertAll_suffix :
    ∀ (kvs : List (List Char × ImpactResult)) (c : Cache) (processed : List (List Char)),
      (c.map Prod.fst) <:+ processed → c.length ≤ 1000 →
      (∀ kv ∈ kvs, kv.1 ∉ processed) → (kvs.map Prod.fst).Nodup →
      ((kvs.foldl (fun c kv => cache_result kv.1 kv.2 c) c).map Prod.fst) <:+
        (processed ++ kvs.map Prod.fst) ∧
      (kvs.foldl (fun c kv => cache_result kv.1 kv.2 c) c).length ≤ 1000 := by
  intro kvs
  induction kvs with
  | nil =>
    intro c processed h1 h2 _ _
    simpa using ⟨h1, h2⟩
  | cons kv rest ih =>
    intro c processed h1 h2 hnotin hnodup
    simp only [List.foldl_cons]
    have hknotc : ∀ p ∈ c, p.1 ≠ kv.1 := by
      intro p hp heq
      have hmem : p.1 ∈ processed := h1.subset (List.mem_map_of_mem Prod.fst hp)
      exact hnotin kv (List.mem_cons_self kv rest) (heq ▸ hmem)
    have hins : pyDictInsert c kv.1 kv.2 = c ++ [(kv.1, kv.2)] :=
      pyDictInsert_new c kv.1 kv.2 hknotc
    have hkeys : (cache_result kv.1 kv.2 c).map Prod.fst <:+ processed ++ [kv.1] := by
      simp only [cache_result, hins]
      have hbase : (c ++ [(kv.1, kv.2)]).map Prod.fst <:+ processed ++ [kv.1] := by
        rw [List.map_append]
        exact suffix_append_single h1 kv.1
      split
      · refine List.IsSuffix.trans ?_ hbase
        rw [List.map_drop]
        exact List.drop_suffix 200 _
      · exact hbase
    have hlen1 : (cache_result kv.1 kv.2 c).length ≤ 1000 := cache_result_bound _ _ _ h2
    have hnodup2 := hnodup
    rw [List.map_cons] at hnodup2
    have hnodup' := List.nodup_cons.mp hnodup2
    have hrest := ih (cache_result kv.1 kv.2 c) (processed ++ [kv.1]) hkeys hlen1
      (fun x hx => by
        simp only [List.mem_append, List.mem_singleton, not_or]
        exact ⟨hnotin x (List.mem_cons_of_mem kv hx),
          fun hk => hnodup'.1 (hk ▸ List.mem_map_of_mem Prod.fst hx)⟩)
      hnodup'.2
    simpa [List.append_assoc] using hrest

/-- C7: a cache write never leaves more than 1000 entries (given the bound
held before), and inserting any sequence of distinct keys from an empty cache
leaves a cache whose keys are a suffix of the insertion sequence - the
evicted keys are exactly the earliest-inserted prefix, every survivor being
inserted later than every evicted key. -/
theorem C7_cache :
    (∀ (k : List Char) (v : ImpactResult) (c : Cache), c.length ≤ 1000 →
      (cache_result k v c).length ≤ 1000) ∧
    (∀ kvs : List (List Char × ImpactResult), (kvs.map Prod.fst).Nodup →
      ((kvs.foldl (fun c kv => cache_result kv.1 kv.2 c) []).map Prod.fst) <:+
        kvs.map Prod.fst ∧
      (kvs.foldl (fun c kv => cache_result kv.1 kv.2 c) []).length ≤ 1000) := by
  refine ⟨cache_result_bound, fun kvs hnd => ?_⟩
  have h := insertAll_suffix kvs [] [] (by simp) (by simp) (by simp) hnd
  simpa using h

/-- Witness for C7 on a singleton insertion. -/
theorem C7_cache_witness :
    (cache_result "k".data exampleResult []).length ≤ 1000 ∧
    (([("a".data, exampleResult)].foldl (fun c kv => cache_result kv.1 kv.2 c) []).map
      Prod.fst) <:+ ["a".data] ∧
    ([("a".data, exampleResult)].foldl (fun c kv => cache_result kv.1 kv.2 c) []).length ≤ 1000 := by
  refine ⟨C7_cache.1 "k".data exampleResult [] (by simp), ?_, ?_⟩
  · exact (C7_cache.2 [("a".data, exampleResult)] (by simp)).1
  · exact (C7_cache.2 [("a".data, exampleResult)] (by simp)).2

end PromptPulse
